import Mathlib

/-!
Verification of the wiki-guess-backend table-normalization code
(`src/wikiparser/wikiparser.py`) against its specification.

The HTML table tree manipulated through BeautifulSoup is shallowly embedded:
a table is a list of rows (`tr` elements in document order), a row holds an
optional `class` attribute and an ordered list of items (cells or stray text
nodes), and a cell holds a tag, a class list and inline content (text nodes
and `sup` elements).  Python functions become Lean functions on this model;
exceptions become `Except`; the in-place mutation of the soup (cell insertion,
row decomposition) becomes functional update, which is faithful because the
walk in `extract_info_table` moves strictly forward and never revisits a
mutated node.
-/

namespace WikiGuess

/-- Does `needle` occur at the head of `hay`? (helper for substring tests) -/
def lead_match : List Char → List Char → Bool
  | [], _ => true
  | _ :: _, [] => false
  | a :: as, b :: bs => a = b && lead_match as bs

/-- Does `needle` occur contiguously anywhere inside `hay`?  Models the
Python substring test `needle in hay`. -/
def has_sub_chars (needle : List Char) : List Char → Bool
  | [] => lead_match needle []
  | c :: t => lead_match needle (c :: t) || has_sub_chars needle t

/-- Python's `needle in hay` on strings. -/
def has_sub (needle hay : String) : Bool :=
  has_sub_chars needle.data hay.data

/-- Inline content of a cell: a text node, or a `sup` element (the only
nested element the code inspects: citation markers are `sup.reference`). -/
inductive Inline where
  | text (s : String)
  | sup (classes : List String) (s : String)
deriving DecidableEq, Repr

/-- A table cell: `th` or `td` tag, class list, inline content. -/
structure Cell where
  tag : String
  classes : List String
  content : List Inline
deriving DecidableEq, Repr

/-- An item directly inside a `tr`: a cell, or a stray text node. -/
inductive RowItem where
  | cell (c : Cell)
  | txt (s : String)
deriving DecidableEq, Repr

/-- A table row (`tr`): optional `class` attribute (absent ↔ `none`),
and its items in document order. -/
structure Row where
  classes : Option (List String)
  items : List RowItem
deriving DecidableEq, Repr

/-- `get_text()` of an inline node. -/
def inline_text : Inline → String
  | .text s => s
  | .sup _ s => s

/-- `get_text()` of a cell: concatenation of its inline text. -/
def cell_text (c : Cell) : String :=
  String.join (c.content.map inline_text)

/-- Is this item a `th` cell carrying class `infobox-label`?  Models the
BeautifulSoup query `row.find('th', 'infobox-label')` membership test. -/
def is_label_cell : RowItem → Bool
  | .cell c => c.tag = "th" && c.classes.contains "infobox-label"
  | .txt _ => false

/-- Is this item a `th` cell (any class)? -/
def is_th_cell : RowItem → Bool
  | .cell c => c.tag = "th"
  | .txt _ => false

/-- The fresh cell built by `soup.new_tag('th')` with its string set to the
group name (`insert_group_name`, lines 97-98). -/
def new_group_cell (g : String) : RowItem :=
  .cell ⟨"th", [], [Inline.text g]⟩

/-- `data_label.insert_before(new_cell)`: insert the fresh group cell
immediately before the first `th.infobox-label` item; when no such cell
exists the list is returned unchanged (the `if data_label:` guard). -/
def insert_before_label (g : String) : List RowItem → List RowItem
  | [] => []
  | i :: is => if is_label_cell i then new_group_cell g :: i :: is
               else i :: insert_before_label g is

/-- `insert_group_name(row, group_name, soup)` (wikiparser.py lines 90-99):
adds the group cell before the row's label cell, if the row has one. -/
def insert_group_name (r : Row) (g : String) : Row :=
  { r with items := insert_before_label g r.items }

/-- Does the row contain a `th.infobox-label` cell? -/
def has_label (r : Row) : Bool :=
  r.items.any is_label_cell

/-- The continuation test of `process_group` (line 110):
`'class' in data_row.attrs and any(x in ' '.join(data_row['class']) for x in
['mergedrow', 'mergedbottomrow'])` — a SUBSTRING test on the space-joined
class string, not membership in the class list. -/
def is_continuation (r : Row) : Bool :=
  match r.classes with
  | none => false
  | some cs =>
      has_sub "mergedrow" (String.intercalate " " cs) ||
      has_sub "mergedbottomrow" (String.intercalate " " cs)

/-- `row.find('th', 'infobox-header')`: first `th` cell of the row whose
class list contains `infobox-header`. -/
def find_header_cell : List RowItem → Option Cell
  | [] => none
  | .cell c :: is =>
      if c.tag = "th" && c.classes.contains "infobox-header" then some c
      else find_header_cell is
  | .txt _ :: is => find_header_cell is

/-- Does some text of this inline node match the regex `GDP`
(`re.compile('GDP')` searches for the substring)? -/
def inline_has_gdp (i : Inline) : Bool :=
  has_sub "GDP" (inline_text i)

/-- `row.find(string=re.compile('GDP'))` followed by `.find_parent('th')`:
`none` when no text node matches (the `.find_parent` call on `None` raises
`AttributeError`, caught by the `except` at line 137); `some none` when the
first matching text node has no `th` ancestor (`find_parent` returns `None`,
no exception); `some (some c)` when its nearest `th` ancestor is `c`. -/
def first_gdp_loc : List RowItem → Option (Option Cell)
  | [] => none
  | .txt s :: is =>
      if has_sub "GDP" s then some none else first_gdp_loc is
  | .cell c :: is =>
      if c.content.any inline_has_gdp then
        some (if c.tag = "th" then some c else none)
      else first_gdp_loc is

/-- The row classification of the walker's loop body (lines 131-140):
structural `th.infobox-header` first, then the GDP-keyword heuristic;
returns the group name (`subheader.get_text()`) when the row is a header. -/
def classify (r : Row) : Option String :=
  match find_header_cell r.items with
  | some c => some (cell_text c)
  | none =>
      match first_gdp_loc r.items with
      | some (some c) => some (cell_text c)
      | _ => none

/-- `process_group` (lines 102-115) on the rows following the header row:
consumes the contiguous run of continuation rows, annotating each with the
group name, and returns (annotated run, remaining rows).  The header row
itself is decomposed by the caller's equation (it is simply not re-emitted),
and the second component's head is the returned cursor `data_row`. -/
def process_group (g : String) : List Row → List Row × List Row
  | [] => ([], [])
  | r :: rs =>
      if is_continuation r then
        let p := process_group g rs
        (insert_group_name r g :: p.1, p.2)
      else ([], r :: rs)

/-- Fuel-indexed form of the `while row:` loop of `extract_info_table`
(lines 129-143).  Fuel only bounds the number of iterations; walking a list
of rows with fuel at least its length never exhausts it (proved below),
which is exactly the termination argument: the cursor strictly advances. -/
def walk_go : Nat → List Row → List Row
  | 0, _ => []
  | _, [] => []
  | Nat.succ n, r :: rs =>
      match classify r with
      | some g => (process_group g rs).1 ++ walk_go n (process_group g rs).2
      | none => insert_group_name r "No Group" :: walk_go n rs

/-- The full walk of `extract_info_table` over the table's rows. -/
def walk_rows (rows : List Row) : List Row :=
  walk_go rows.length rows

/-- Rows emitted by one iteration of the walker's loop. -/
def step_out : List Row → List Row
  | [] => []
  | r :: rs =>
      match classify r with
      | some g => (process_group g rs).1
      | none => [insert_group_name r "No Group"]

/-- Cursor position after one iteration of the walker's loop. -/
def step_remaining : List Row → List Row
  | [] => []
  | r :: rs =>
      match classify r with
      | some g => (process_group g rs).2
      | none => rs

/-- Is this inline node a citation marker, i.e. a `sup` element whose class
list contains `reference` (`info_table.find_all('sup', 'reference')`)? -/
def is_ref_sup : Inline → Bool
  | .sup cls _ => cls.contains "reference"
  | _ => false

/-- Remove citation markers from one item (`x.decompose()` for every
`sup.reference` descendant, lines 126-127). -/
def remove_refs_item : RowItem → RowItem
  | .cell c => .cell { c with content := c.content.filter (fun i => !is_ref_sup i) }
  | .txt s => .txt s

/-- Remove every citation marker node from the table's rows. -/
def remove_refs_rows (rows : List Row) : List Row :=
  rows.map (fun r => { r with items := r.items.map remove_refs_item })

/-- Number of citation marker nodes in one item. -/
def count_refs_item : RowItem → Nat
  | .cell c => c.content.countP (fun i => is_ref_sup i)
  | .txt _ => 0

/-- Number of citation marker nodes remaining in the rows. -/
def count_refs (rows : List Row) : Nat :=
  (rows.map (fun r => ((r.items.map count_refs_item).foldr (· + ·) 0))).foldr (· + ·) 0

/-- Map `f` over the characters of a list and concatenate the images
(explicit flat map, used to state properties of the substitutions). -/
def flat_subst (f : Char → List Char) : List Char → List Char
  | [] => []
  | c :: cs => f c ++ flat_subst f cs

/-- One `str.replace(pat, rep)` where the pattern is a single character:
every occurrence of `pat` is replaced by `rep`, other characters kept. -/
def repl_all (pat : Char) (rep : List Char) (s : List Char) : List Char :=
  flat_subst (fun c => if c = pat then rep else [c]) s

/-- The four chained `.replace` calls of line 145 in source order:
bullet U+2022 → "", no-break space U+00A0 → " ", middle dot U+00B7 → ", ",
en-dash U+2013 → "-". -/
def sanitize_chars (s : List Char) : List Char :=
  repl_all '\u2013' ['-'] (repl_all '\u00B7' [',', ' ']
    (repl_all '\u00A0' [' '] (repl_all '\u2022' [] s)))

/-- The character substitutions of line 145 on the serialized table text. -/
def sanitize_text (s : String) : String :=
  String.mk (sanitize_chars s.data)

/-- The net per-character effect of the whole substitution chain. -/
def subst_char (c : Char) : List Char :=
  if c = '\u2022' then []
  else if c = '\u00A0' then [' ']
  else if c = '\u00B7' then [',', ' ']
  else if c = '\u2013' then ['-']
  else [c]

/-- Serialize a class list as an HTML attribute. -/
def class_attr : List String → String
  | [] => ""
  | cs => " class=\"" ++ String.intercalate " " cs ++ "\""

/-- Serialize an inline node back to HTML text (model of `str(...)`). -/
def serialize_inline : Inline → String
  | .text s => s
  | .sup cls s => "<sup" ++ class_attr cls ++ ">" ++ s ++ "</sup>"

/-- Serialize one row item back to HTML text. -/
def serialize_item : RowItem → String
  | .cell c => "<" ++ c.tag ++ class_attr c.classes ++ ">" ++
      String.join (c.content.map serialize_inline) ++ "</" ++ c.tag ++ ">"
  | .txt s => s

/-- Serialize one row back to HTML text. -/
def serialize_row (r : Row) : String :=
  "<tr" ++ class_attr (r.classes.getD []) ++ ">" ++
    String.join (r.items.map serialize_item) ++ "</tr>"

/-- Serialize the infobox table back to HTML text (`str(info_table)`). -/
def serialize_rows (rows : List Row) : String :=
  "<table class=\"infobox\">" ++ String.join (rows.map serialize_row) ++ "</table>"

/-- A `table` element of a parsed page: class list, the text nodes of its
`caption` (absent ↔ `none`), and its rows. -/
structure HtmlTable where
  classes : List String
  captionTexts : Option (List String)
  rows : List Row
deriving DecidableEq, Repr

/-- The failure modes of the code, by raise site: the three classified
`RuntimeError`s of `get_wiki_page` named after the spec's taxonomy
(404 / API error → not found, 500 → remote server error, other non-200 →
unhandled), plus the unclassified Python `AttributeError` that a method
call on `None` raises. -/
inductive WikiError where
  | notFound
  | remoteServerError
  | unhandledFetchError
  | attributeError
deriving DecidableEq, Repr

/-- `soup.find('table', 'infobox')` (line 124): first table whose class
list contains `infobox`. -/
def find_infobox (p : List HtmlTable) : Option HtmlTable :=
  p.find? (fun t => t.classes.contains "infobox")

/-- `is_country_table` (lines 46-55): the table has a caption and the
caption has a text node that is exactly `UN member states`
(`caption.find(string='UN member states')` matches whole text nodes). -/
def is_country_table (t : HtmlTable) : Bool :=
  match t.captionTexts with
  | none => false
  | some xs => xs.contains "UN member states"

/-- The table-location step of `get_countries` (lines 69-70):
`next((table for table in tables if is_country_table(table)), None)` and the
immediately following `country_table.find_all(...)`, which raises
`AttributeError` when the default `None` was taken. -/
def get_countries_locate (p : List HtmlTable) : Except WikiError HtmlTable :=
  match p.find? is_country_table with
  | none => .error .attributeError
  | some t => .ok t

/-- `extract_info_table` (lines 118-147): locate the infobox table (the
`info_table.find_all` call on a `None` result raises `AttributeError`),
decompose the citation markers, run the walker, serialize and apply the
character substitutions. -/
def extract_info_table (p : List HtmlTable) : Except WikiError String :=
  match find_infobox p with
  | none => .error .attributeError
  | some t => .ok (sanitize_text (serialize_rows (walk_rows (remove_refs_rows t.rows))))

/-- JSON values as far as the code inspects them. -/
inductive Json where
  | null
  | str (s : String)
  | obj (fields : List (String × Json))

/-- First binding of a key in a JSON object's field list. -/
def lookup_json (k : String) : List (String × Json) → Option Json
  | [] => none
  | (k2, v) :: fs => if k2 = k then some v else lookup_json k fs

/-- Python's `x.get(k)`: on a dict, the value or `None`; on anything else
(including `None` itself) the attribute access raises `AttributeError`. -/
def py_get (j : Json) (k : String) : Except WikiError Json :=
  match j with
  | .obj fs => .ok ((lookup_json k fs).getD .null)
  | _ => .error .attributeError

/-- Python truthiness of the modelled JSON values
(`None`, `""` and `{}` are falsy). -/
def py_truthy : Json → Bool
  | .null => false
  | .str s => s != ""
  | .obj fs => !fs.isEmpty

/-- An HTTP response as `get_wiki_page` observes it: status code and
decoded JSON body. -/
structure HttpResponse where
  status : Nat
  body : Json

/-- `get_wiki_page` (lines 12-31): classify non-200 statuses, then check
for an API-level error in the body, then return
`response.json().get('parse').get('text').get('*')` — each `.get` on a
non-dict raises `AttributeError`, and a final missing `'*'` key yields
`None` without error. -/
def get_wiki_page (resp : HttpResponse) : Except WikiError Json :=
  if resp.status = 404 then .error .notFound
  else if resp.status = 500 then .error .remoteServerError
  else if resp.status ≠ 200 then .error .unhandledFetchError
  else
    match py_get resp.body "error" with
    | .error e => .error e
    | .ok e =>
        if py_truthy e then .error .notFound
        else
          match py_get resp.body "parse" with
          | .error e2 => .error e2
          | .ok p =>
              match py_get p "text" with
              | .error e3 => .error e3
              | .ok t => py_get t "*"

/-- One row of the dataframe of `get_country_info` after the columns are
named `Group`, `Property`, `Value`; a `none` field is a `NaN`. -/
structure PRow where
  group : Option String
  property : Option String
  value : Option String
deriving DecidableEq, Repr

/-- Does the row have all three values present (no `NaN`)? -/
def prow_complete (r : PRow) : Bool :=
  r.group.isSome && r.property.isSome && r.value.isSome

/-- `df.dropna()`: keep exactly the complete rows, in order.  Models the
pandas call per its documented semantics. -/
def dropna (t : List PRow) : List PRow :=
  t.filter prow_complete

/-- `pandas.read_html(...)[0]`: of all tables parsed from the markup only
the first is used; `none` when no table was parsed. -/
def read_html_first (tables : List (List PRow)) : Option (List PRow) :=
  tables.head?

/-- The reshaping step of `get_country_info` (lines 83-86): first parsed
table, columns renamed, incomplete rows dropped. -/
def get_country_info_reshape (tables : List (List PRow)) : Option (List PRow) :=
  (read_html_first tables).map dropna

/-- The cells of a row in order (what pandas reads as columns). -/
def row_cells (r : Row) : List Cell :=
  r.items.filterMap (fun i => match i with | .cell c => some c | .txt _ => none)

/-- How pandas reads one normalized row of the serialized, substituted
table: the first three cells' text (after the character substitutions)
as `Group`, `Property`, `Value`, missing cells as `NaN`. -/
def row_to_prow (r : Row) : PRow :=
  { group := ((row_cells r).get? 0).map (fun c => sanitize_text (cell_text c))
    property := ((row_cells r).get? 1).map (fun c => sanitize_text (cell_text c))
    value := ((row_cells r).get? 2).map (fun c => sanitize_text (cell_text c)) }

/-- Lexicographic order on strings as a Boolean test. -/
def chars_le : List Char → List Char → Bool
  | [], _ => true
  | _ :: _, [] => false
  | a :: as, b :: bs => if a = b then chars_le as bs else decide (a < b)

/-- Insert a group key into a sorted duplicate-free key list
(`df.groupby` sorts its keys). -/
def insert_sorted (k : String) : List String → List String
  | [] => [k]
  | x :: xs =>
      if k = x then x :: xs
      else if chars_le k.data x.data then k :: x :: xs
      else x :: insert_sorted k xs

/-- The sorted duplicate-free group keys of the dataframe. -/
def group_keys (rows : List PRow) : List String :=
  (rows.map (fun r => r.group.getD "")).foldr insert_sorted []

/-- The records of one group, in original row order. -/
def records_for (k : String) (rows : List PRow) : List PRow :=
  rows.filter (fun r => r.group.getD "" = k)

/-- One `{"Property": p, "Value": v}` record of the JSON output. -/
def serialize_record (r : PRow) : String :=
  "\x7b\"Property\":\"" ++ r.property.getD "" ++ "\",\"Value\":\"" ++
    r.value.getD "" ++ "\"\x7d"

/-- `serialize_country_info` (lines 150-154): group the dataframe by the
`Group` column and serialize group → record-list to JSON text. -/
def serialize_country_info (rows : List PRow) : String :=
  "\x7b" ++ String.intercalate ","
    ((group_keys rows).map (fun k =>
      "\"" ++ k ++ "\":[" ++
        String.intercalate "," ((records_for k rows).map serialize_record) ++ "]")) ++
  "\x7d"

/-- The full normalization pipeline on a parsed page: locate the infobox,
strip citation markers, walk and annotate the rows, reshape with the
substituted cell text, drop incomplete rows, group and serialize.  A pure
function of the parsed page: each Python call builds a fresh soup from its
input string and touches no module-level state. -/
def grouped_info_document (p : List HtmlTable) : Except WikiError String :=
  match find_infobox p with
  | none => .error .attributeError
  | some t =>
      .ok (serialize_country_info
        (dropna ((walk_rows (remove_refs_rows t.rows)).map row_to_prow)))

/-- Does the row carry any `th` cell at all?  An injected group cell is a
`th`, so a row without any `th` cell certainly received none. -/
def carries_th_cell (r : Row) : Bool :=
  r.items.any is_th_cell

/-- When the item list has a `th.infobox-label` cell, is its first such
cell immediately preceded by a `th` cell (the injected group cell)?
Vacuously true when there is no label cell. -/
def label_preceded : List RowItem → Bool
  | [] => true
  | i :: is =>
      if is_label_cell i then false
      else
        match is with
        | [] => true
        | j :: _ => if is_label_cell j then is_th_cell i else label_preceded is

/-- A data row with no `th.infobox-label` cell: one `td` holding text. -/
def row_no_label : Row :=
  ⟨none, [RowItem.cell ⟨"td", [], [Inline.text "hello"]⟩]⟩

/-- A label cell as found in infobox data rows. -/
def label_cell_demo : RowItem :=
  .cell ⟨"th", ["infobox-label"], [Inline.text "Prop"]⟩

/-- A value cell as found in infobox data rows. -/
def value_cell_demo : RowItem :=
  .cell ⟨"td", [], [Inline.text "Val"]⟩

/-- A well-formed data row: label cell then value cell, no class. -/
def row_with_label : Row :=
  ⟨none, [label_cell_demo, value_cell_demo]⟩

/-- A group-header row: a single `th.infobox-header` with text `G`. -/
def header_row_demo : Row :=
  ⟨none, [RowItem.cell ⟨"th", ["infobox-header"], [Inline.text "G"]⟩]⟩

/-- A data row whose class attribute is `["unmergedrow"]`: its class list
contains neither continuation marker, yet the space-joined class string
contains `mergedrow` as a substring. -/
def row_unmergedrow : Row :=
  ⟨some ["unmergedrow"], [label_cell_demo, value_cell_demo]⟩

/-- A proper continuation row (class `mergedrow`) with a label cell. -/
def row_merged : Row :=
  ⟨some ["mergedrow"], [label_cell_demo, value_cell_demo]⟩

/-- A data row whose only GDP-matching text node sits in a `td`, hence has
no `th` ancestor. -/
def row_gdp_in_td : Row :=
  ⟨none, [RowItem.cell ⟨"td", [], [Inline.text "GDP (PPP)"]⟩]⟩

/-- A page with a single non-infobox, non-country table. -/
def page_no_infobox : List HtmlTable :=
  [⟨["wikitable"], some ["Other caption"], [row_with_label]⟩]

/-- A page whose only table is an infobox holding one data row. -/
def page_with_infobox : List HtmlTable :=
  [⟨["infobox"], none, [row_with_label]⟩]

/-- A 200 response whose body carries an API-level error object. -/
def resp_api_error : HttpResponse :=
  ⟨200, .obj [("error", .obj [("code", .str "missingtitle")])]⟩

/-- A 200 response whose body has `parse` and `text` but no `*` key. -/
def resp_no_star : HttpResponse :=
  ⟨200, .obj [("parse", .obj [("text", .obj [])])]⟩

/-- A 200 response with the full `parse.text.*` path present. -/
def resp_full : HttpResponse :=
  ⟨200, .obj [("parse", .obj [("text", .obj [("*", .str "<html>")])])]⟩

/-- A parsed dataframe with one complete and two incomplete rows. -/
def prows_demo : List PRow :=
  [⟨some "A", some "P", some "V"⟩, ⟨some "A", none, some "W"⟩,
   ⟨none, some "Q", none⟩]

/-! ## Walker lemmas -/

theorem process_group_snd_length_le (g : String) :
    ∀ rs : List Row, (process_group g rs).2.length ≤ rs.length := by
  intro rs
  induction rs with
  | nil => simp [process_group]
  | cons r rs ih =>
      by_cases h : is_continuation r
      · simpa [process_group, h] using Nat.le_succ_of_le ih
      · simp [process_group, h]

theorem walk_go_nil : ∀ n : Nat, walk_go n ([] : List Row) = [] := by
  intro n
  cases n <;> rfl

theorem walk_go_cons_some {r : Row} {g : String} (hc : classify r = some g)
    (n : Nat) (rs : List Row) :
    walk_go (n + 1) (r :: rs) =
      (process_group g rs).1 ++ walk_go n (process_group g rs).2 := by
  simp [walk_go, hc]

theorem walk_go_cons_none {r : Row} (hc : classify r = none)
    (n : Nat) (rs : List Row) :
    walk_go (n + 1) (r :: rs) =
      insert_group_name r "No Group" :: walk_go n rs := by
  simp [walk_go, hc]

theorem walk_go_fuel :
    ∀ (n m : Nat) (rs : List Row), rs.length ≤ n → rs.length ≤ m →
      walk_go n rs = walk_go m rs := by
  intro n
  induction n with
  | zero =>
      intro m rs h1 _
      have : rs = [] := List.length_eq_zero.mp (Nat.le_zero.mp h1)
      subst this
      rw [walk_go_nil, walk_go_nil]
  | succ n ih =>
      intro m rs h1 h2
      cases rs with
      | nil => rw [walk_go_nil, walk_go_nil]
      | cons r rs =>
          cases m with
          | zero => simp at h2
          | succ m =>
              have h1n : rs.length ≤ n := Nat.le_of_succ_le_succ h1
              have h2m : rs.length ≤ m := Nat.le_of_succ_le_succ h2
              cases hc : classify r with
              | some g =>
                  rw [walk_go_cons_some hc, walk_go_cons_some hc]
                  have hle := process_group_snd_length_le g rs
                  rw [ih m (process_group g rs).2 (le_trans hle h1n) (le_trans hle h2m)]
              | none =>
                  rw [walk_go_cons_none hc, walk_go_cons_none hc, ih m rs h1n h2m]

theorem walk_rows_cons_some {r : Row} {g : String} (hc : classify r = some g)
    (rs : List Row) :
    walk_rows (r :: rs) =
      (process_group g rs).1 ++ walk_rows (process_group g rs).2 := by
  show walk_go (rs.length + 1) (r :: rs) = _
  rw [walk_go_cons_some hc]
  unfold walk_rows
  rw [walk_go_fuel rs.length (process_group g rs).2.length (process_group g rs).2
    (process_group_snd_length_le g rs) (le_refl _)]

theorem walk_rows_cons_none {r : Row} (hc : classify r = none) (rs : List Row) :
    walk_rows (r :: rs) = insert_group_name r "No Group" :: walk_rows rs := by
  show walk_go (rs.length + 1) (r :: rs) = _
  rw [walk_go_cons_none hc]
  rfl

/-- C5: the Table Walker makes a single forward pass: each loop iteration
emits its rows and strictly shrinks the remaining cursor suffix (either by
one sibling row or by the header row plus the whole run the Group Annotator
consumed), so the walk terminates, ends exactly when the cursor is empty,
and never visits a row twice. -/
theorem C5_walker_single_pass_terminates :
    ∀ (r : Row) (rs : List Row),
      walk_rows (r :: rs) = step_out (r :: rs) ++ walk_rows (step_remaining (r :: rs)) ∧
      (step_remaining (r :: rs)).length < (r :: rs).length ∧
      walk_rows ([] : List Row) = [] := by
  intro r rs
  refine ⟨?_, ?_, rfl⟩
  · cases hc : classify r with
    | some g => rw [walk_rows_cons_some hc]; simp [step_out, step_remaining, hc]
    | none => rw [walk_rows_cons_none hc]; simp [step_out, step_remaining, hc]
  · cases hc : classify r with
    | some g =>
        simp only [step_remaining, hc, List.length_cons]
        exact Nat.lt_succ_of_le (process_group_snd_length_le g rs)
    | none => simp [step_remaining, hc]

/-! ## Group-cell injection lemmas -/

theorem insert_before_label_no_label (g : String) :
    ∀ l : List RowItem, l.any is_label_cell = false → insert_before_label g l = l := by
  intro l
  induction l with
  | nil => intro _; rfl
  | cons i is ih =>
      intro h
      simp only [List.any_cons, Bool.or_eq_false_iff] at h
      simp [insert_before_label, h.1, ih h.2]

theorem insert_group_name_no_label (r : Row) (g : String)
    (h : has_label r = false) : insert_group_name r g = r := by
  unfold insert_group_name
  rw [insert_before_label_no_label g r.items h]

theorem label_preceded_insert (g : String) :
    ∀ l : List RowItem, l.any is_label_cell = true →
      label_preceded (insert_before_label g l) = true := by
  intro l
  induction l with
  | nil => intro h; simp at h
  | cons i is ih =>
      intro h
      by_cases hi : is_label_cell i = true
      · simp only [insert_before_label, hi, if_pos]
        have h1 : is_label_cell (new_group_cell g) = false := by
          simp [new_group_cell, is_label_cell]
        have h2 : is_th_cell (new_group_cell g) = true := by
          simp [new_group_cell, is_th_cell]
        simp [label_preceded, h1, h2, hi]
      · have hi' : is_label_cell i = false := by
          simpa using hi
        simp only [List.any_cons, hi', Bool.false_or] at h
        have ihis := ih h
        cases is with
        | nil => simp at h
        | cons k tl =>
            by_cases hk : is_label_cell k = true
            · have h1 : is_label_cell (new_group_cell g) = false := by
                simp [new_group_cell, is_label_cell]
              have h2 : is_th_cell (new_group_cell g) = true := by
                simp [new_group_cell, is_th_cell]
              simp [insert_before_label, hk, label_preceded, hi', h1, h2]
            · have hk' : is_label_cell k = false := by simpa using hk
              simp only [insert_before_label, hk', Bool.false_eq_true, if_false] at ihis ⊢
              simp only [label_preceded, hi', Bool.false_eq_true, if_false]
              simpa [label_preceded, hk'] using ihis

theorem process_group_fst_shape (g : String) :
    ∀ (rs : List Row) (r : Row), r ∈ (process_group g rs).1 →
      ∃ r0, r = insert_group_name r0 g := by
  intro rs
  induction rs with
  | nil => intro r h; simp [process_group] at h
  | cons r1 tl ih =>
      intro r h
      by_cases hc : is_continuation r1
      · simp only [process_group, hc, if_pos, List.mem_cons] at h
        rcases h with h | h
        · exact ⟨r1, h⟩
        · exact ih r h
      · simp [process_group, hc] at h

theorem mem_walk_go :
    ∀ (n : Nat) (rs : List Row) (r : Row), r ∈ walk_go n rs →
      ∃ r0 g, r = insert_group_name r0 g := by
  intro n
  induction n with
  | zero => intro rs r h; simp [walk_go] at h
  | succ n ih =>
      intro rs r h
      cases rs with
      | nil => rw [walk_go_nil] at h; simp at h
      | cons r1 tl =>
          cases hc : classify r1 with
          | some g =>
              rw [walk_go_cons_some hc] at h
              rcases List.mem_append.mp h with h | h
              · rcases process_group_fst_shape g tl r h with ⟨r0, hr0⟩
                exact ⟨r0, g, hr0⟩
              · exact ih _ r h
          | none =>
              rw [walk_go_cons_none hc] at h
              rcases List.mem_cons.mp h with h | h
              · exact ⟨r1, "No Group", h⟩
              · exact ih _ r h

theorem mem_walk_rows {rows : List Row} {r : Row} (h : r ∈ walk_rows rows) :
    ∃ r0 g, r = insert_group_name r0 g :=
  mem_walk_go rows.length rows r h

/-- C1 counterexample: the claim "every non-header row of the final table
carries a group cell" fails.  `insert_group_name` refuses to inject into a
row with no `th.infobox-label` cell, so a lone `td`-only data row passes
through the walk unchanged and ends up with no group cell (no `th` at
all). -/
theorem C1_counterexample :
    classify row_no_label = none ∧
    walk_rows [row_no_label] = [row_no_label] ∧
    carries_th_cell row_no_label = false := by
  decide

/-- C1 (amended): in the walker's forward pass every emitted row passed
through `insert_group_name`, so every row of the final table that has a
label-style cell (`th.infobox-label`) carries a group `th` cell immediately
before its first label cell; rows lacking a label cell are left unchanged
by the injection (and in particular receive no "No Group" cell). -/
theorem C1_sentinel_injection :
    (∀ (t : List Row), ∀ r ∈ walk_rows t, has_label r = true →
        label_preceded r.items = true) ∧
    (∀ (r : Row) (g : String), has_label r = false → insert_group_name r g = r) := by
  constructor
  · intro t r hmem hlab
    rcases mem_walk_rows hmem with ⟨r0, g, rfl⟩
    by_cases h0 : has_label r0 = true
    · exact label_preceded_insert g r0.items h0
    · have h0' : has_label r0 = false := by simpa using h0
      rw [insert_group_name_no_label r0 g h0'] at hlab ⊢
      rw [hlab] at h0'
      cases h0'
  · exact insert_group_name_no_label

/-- Witness for C1: the amended theorem applied to the one-row table whose
row has a label cell, and to a label-free row. -/
theorem C1_sentinel_injection_witness :
    label_preceded (insert_group_name row_with_label "No Group").items = true ∧
    insert_group_name row_no_label "G" = row_no_label :=
  ⟨C1_sentinel_injection.1 [row_with_label]
      (insert_group_name row_with_label "No Group") (by decide) (by decide),
   C1_sentinel_injection.2 row_no_label "G" (by decide)⟩

/-! ## Group Annotator lemmas -/

theorem process_group_take_drop (g : String) :
    ∀ rs : List Row,
      (process_group g rs).1 =
        (rs.takeWhile is_continuation).map (fun r => insert_group_name r g) ∧
      (process_group g rs).2 = rs.dropWhile is_continuation := by
  intro rs
  induction rs with
  | nil => simp [process_group]
  | cons r tl ih =>
      by_cases h : is_continuation r
      · simp [process_group, List.takeWhile_cons, List.dropWhile_cons, h, ih.1, ih.2]
      · simp [process_group, List.takeWhile_cons, List.dropWhile_cons, h]

/-- C2 counterexample: the claim describes the continuation run as the rows
"whose class list contains `mergedrow` or `mergedbottomrow`", but the code
tests substring containment in the space-joined class string
(`x in ' '.join(row['class'])`).  A row whose sole class is `unmergedrow`
has neither marker in its class list, yet `process_group` consumes and
annotates it. -/
theorem C2_counterexample :
    (["unmergedrow"].contains "mergedrow" = false ∧
     ["unmergedrow"].contains "mergedbottomrow" = false) ∧
    is_continuation row_unmergedrow = true ∧
    process_group "G" [row_unmergedrow] =
      ([insert_group_name row_unmergedrow "G"], []) ∧
    insert_group_name row_unmergedrow "G" ≠ row_unmergedrow := by
  decide

/-- C2 (amended): for every header row and group name, the Group Annotator
walks the contiguous run of immediately following rows whose space-joined
class attribute string contains `mergedrow` or `mergedbottomrow` as a
substring, inserts a leading group-name cell into each such row that has a
label-style cell (rows without one are unchanged), then drops the header
row from the output and resumes the walk at the first row after the
consumed run (nothing remains when the table ends). -/
theorem C2_group_annotator :
    (∀ (g : String) (rs : List Row),
        (process_group g rs).1 =
          (rs.takeWhile is_continuation).map (fun r => insert_group_name r g) ∧
        (process_group g rs).2 = rs.dropWhile is_continuation) ∧
    (∀ (r : Row) (g : String), has_label r = false → insert_group_name r g = r) ∧
    (∀ (r : Row) (rs : List Row) (g : String), classify r = some g →
        walk_rows (r :: rs) =
          (process_group g rs).1 ++ walk_rows (process_group g rs).2) :=
  ⟨process_group_take_drop, insert_group_name_no_label,
   fun _ rs _ hc => walk_rows_cons_some hc rs⟩

/-- Witness for C2: a header row followed by one `mergedrow` row, and a
label-free row left unchanged by the injection. -/
theorem C2_group_annotator_witness :
    insert_group_name row_no_label "G" = row_no_label ∧
    walk_rows [header_row_demo, row_merged] =
      (process_group "G" [row_merged]).1 ++
        walk_rows (process_group "G" [row_merged]).2 :=
  ⟨C2_group_annotator.2.1 row_no_label "G" (by decide),
   C2_group_annotator.2.2 header_row_demo [row_merged] "G" (by decide)⟩

/-- C3: the table-location steps do NOT fail with a classified error.  On a
page with no infobox table, `extract_info_table` calls
`info_table.find_all` on `None` (line 126); on a listing page with no table
captioned "UN member states", `get_countries` calls
`country_table.find_all` on `None` (line 70).  Both propagate an
unclassified `AttributeError` — the exact null-dereference-style failure
the spec rules out; no `MalformedPageError` exists in the code. -/
theorem C3_location_null_dereference :
    extract_info_table page_no_infobox = .error .attributeError ∧
    get_countries_locate page_no_infobox = .error .attributeError := by
  constructor <;> rfl

/-- C4: when the structural header check fails, the GDP-keyword heuristic
never propagates an exception: with no GDP-matching text node the
`AttributeError` from `None.find_parent` is caught (`first_gdp_loc = none`),
and with a matching text node that has no `th` ancestor `find_parent`
returns `None` without raising (`first_gdp_loc = some none`); either way the
row classifies as a plain data row and the walk continues past it. -/
theorem C4_gdp_heuristic_safe :
    ∀ (r : Row) (rs : List Row),
      find_header_cell r.items = none →
      (first_gdp_loc r.items = none ∨ first_gdp_loc r.items = some none) →
      classify r = none ∧
      walk_rows (r :: rs) = insert_group_name r "No Group" :: walk_rows rs := by
  intro r rs hh hg
  have hc : classify r = none := by
    rcases hg with h | h <;> simp [classify, hh, h]
  exact ⟨hc, walk_rows_cons_none hc rs⟩

/-- Witness for C4: a row whose only GDP text sits inside a `td`. -/
theorem C4_gdp_heuristic_safe_witness :
    classify row_gdp_in_td = none ∧
    walk_rows [row_gdp_in_td] =
      insert_group_name row_gdp_in_td "No Group" :: walk_rows [] :=
  C4_gdp_heuristic_safe row_gdp_in_td [] (by decide) (Or.inr (by decide))

/-- C6: `get_wiki_page` classifies its failures by cause — not-found on a
404 or on an API-level error object in a 200 body, remote-server-error on a
500, unhandled-fetch-error on any other non-200 status — and a payload is
returned only on a 200 response with no API-level error. -/
theorem C6_fetch_error_classification :
    ∀ resp : HttpResponse,
      (resp.status = 404 → get_wiki_page resp = .error .notFound) ∧
      (resp.status = 500 → get_wiki_page resp = .error .remoteServerError) ∧
      (resp.status ≠ 404 → resp.status ≠ 500 → resp.status ≠ 200 →
        get_wiki_page resp = .error .unhandledFetchError) ∧
      (∀ fs, resp.status = 200 → resp.body = .obj fs →
        py_truthy ((lookup_json "error" fs).getD .null) = true →
        get_wiki_page resp = .error .notFound) ∧
      (∀ v, get_wiki_page resp = .ok v →
        resp.status = 200 ∧ ∃ fs, resp.body = .obj fs ∧
          py_truthy ((lookup_json "error" fs).getD .null) = false) := by
  intro resp
  refine ⟨?_, ?_, ?_, ?_, ?_⟩
  · intro h; simp [get_wiki_page, h]
  · intro h; simp [get_wiki_page, h]
  · intro h404 h500 h200; simp [get_wiki_page, h404, h500, h200]
  · intro fs h200 hbody htr
    simp [get_wiki_page, h200, hbody, py_get, htr]
  · intro v h
    unfold get_wiki_page at h
    by_cases h404 : resp.status = 404
    · rw [if_pos h404] at h; cases h
    rw [if_neg h404] at h
    by_cases h500 : resp.status = 500
    · rw [if_pos h500] at h; cases h
    rw [if_neg h500] at h
    by_cases h200 : resp.status = 200
    · rw [if_neg (not_not_intro h200)] at h
      refine ⟨h200, ?_⟩
      cases hb : resp.body with
      | null => rw [hb] at h; simp [py_get] at h
      | str s => rw [hb] at h; simp [py_get] at h
      | obj fs =>
          rw [hb] at h
          simp only [py_get] at h
          by_cases htr : py_truthy ((lookup_json "error" fs).getD .null) = true
          · rw [if_pos htr] at h; cases h
          · exact ⟨fs, rfl, by simpa using htr⟩
    · rw [if_pos h200] at h; cases h

/-- Witness for C6: concrete responses with status 404, 500, 503 and a 200
response whose body carries an API error object. -/
theorem C6_fetch_error_classification_witness :
    get_wiki_page ⟨404, .null⟩ = .error .notFound ∧
    get_wiki_page ⟨500, .null⟩ = .error .remoteServerError ∧
    get_wiki_page ⟨503, .null⟩ = .error .unhandledFetchError ∧
    get_wiki_page resp_api_error = .error .notFound :=
  ⟨(C6_fetch_error_classification ⟨404, .null⟩).1 rfl,
   (C6_fetch_error_classification ⟨500, .null⟩).2.1 rfl,
   (C6_fetch_error_classification ⟨503, .null⟩).2.2.1
     (by decide) (by decide) (by decide),
   (C6_fetch_error_classification resp_api_error).2.2.2.1
     [("error", .obj [("code", .str "missingtitle")])] rfl rfl rfl⟩

/-- C10 counterexample: on a 200 response whose body has `parse` and `text`
but no `*` key, the final `.get('*')` returns `None` instead of raising, so
`get_wiki_page` returns successfully (with `None`) — not the attribute
error the claim asserts for every absent path. -/
theorem C10_counterexample :
    get_wiki_page resp_no_star = .ok .null ∧
    get_wiki_page resp_no_star ≠ .error .attributeError := by
  refine ⟨rfl, ?_⟩
  intro h
  have h2 : (Except.ok Json.null : Except WikiError Json) =
      .error .attributeError := by
    rw [← h]; rfl
  cases h2

/-- C10 (amended): on a 200 response with no API-level error, a missing
`parse` key or a missing `text` key beneath it makes the call fail with the
unclassified attribute error, but when `parse.text` is present and only the
`*` key is absent the call succeeds and returns `None` (null). -/
theorem C10_parse_path (fs : List (String × Json))
    (hne : py_truthy ((lookup_json "error" fs).getD .null) = false) :
    (lookup_json "parse" fs = none →
        get_wiki_page ⟨200, .obj fs⟩ = .error .attributeError) ∧
    (∀ ps, lookup_json "parse" fs = some (.obj ps) →
        (lookup_json "text" ps = none →
            get_wiki_page ⟨200, .obj fs⟩ = .error .attributeError) ∧
        (∀ ts, lookup_json "text" ps = some (.obj ts) →
            get_wiki_page ⟨200, .obj fs⟩ =
              .ok ((lookup_json "*" ts).getD .null))) := by
  constructor
  · intro hp
    simp [get_wiki_page, py_get, hne, hp]
  · intro ps hps
    constructor
    · intro ht
      simp [get_wiki_page, py_get, hne, hps, ht]
    · intro ts hts
      simp [get_wiki_page, py_get, hne, hps, hts]

/-- Witness for C10: an empty 200 body fails with the attribute error, and
a body whose `text` object lacks `*` succeeds with null. -/
theorem C10_parse_path_witness :
    get_wiki_page ⟨200, .obj []⟩ = .error .attributeError ∧
    get_wiki_page ⟨200, .obj [("parse", .obj [("text", .obj [])])]⟩ =
      .ok ((lookup_json "*" ([] : List (String × Json))).getD .null) :=
  ⟨(C10_parse_path [] rfl).1 rfl,
   ((C10_parse_path [("parse", .obj [("text", .obj [])])] rfl).2
     [("text", .obj [])] rfl).2 [] rfl⟩

/-! ## Sanitizer lemmas -/

theorem flat_subst_append (f : Char → List Char) :
    ∀ l1 l2 : List Char, flat_subst f (l1 ++ l2) = flat_subst f l1 ++ flat_subst f l2 := by
  intro l1 l2
  induction l1 with
  | nil => rfl
  | cons c cs ih => simp [flat_subst, ih]

theorem sanitize_chars_append (l1 l2 : List Char) :
    sanitize_chars (l1 ++ l2) = sanitize_chars l1 ++ sanitize_chars l2 := by
  simp only [sanitize_chars, repl_all, flat_subst_append]

theorem sanitize_char_single (c : Char) : sanitize_chars [c] = subst_char c := by
  by_cases h1 : c = '•'
  · subst h1; rfl
  by_cases h2 : c = ' '
  · subst h2; rfl
  by_cases h3 : c = '·'
  · subst h3; rfl
  by_cases h4 : c = '–'
  · subst h4; rfl
  simp [sanitize_chars, repl_all, flat_subst, subst_char, h1, h2, h3, h4]

theorem sanitize_chars_eq :
    ∀ s : List Char, sanitize_chars s = flat_subst subst_char s := by
  intro s
  induction s with
  | nil => rfl
  | cons c cs ih =>
      have h := sanitize_chars_append [c] cs
      simp only [List.singleton_append] at h
      rw [h, ih, sanitize_char_single c]
      rfl

theorem count_refs_item_remove (i : RowItem) :
    count_refs_item (remove_refs_item i) = 0 := by
  cases i with
  | txt s => rfl
  | cell c =>
      simp only [remove_refs_item, count_refs_item]
      rw [List.countP_eq_zero]
      intro a ha
      have h := (List.mem_filter.mp ha).2
      simpa using h

theorem items_refs_zero :
    ∀ l : List RowItem,
      ((l.map remove_refs_item).map count_refs_item).foldr (· + ·) 0 = 0 := by
  intro l
  induction l with
  | nil => rfl
  | cons i t ih =>
      simp only [List.map_cons, List.foldr_cons, count_refs_item_remove i, Nat.zero_add]
      exact ih

theorem count_refs_remove (rows : List Row) :
    count_refs (remove_refs_rows rows) = 0 := by
  induction rows with
  | nil => rfl
  | cons r tl ih =>
      simp only [count_refs, remove_refs_rows, List.map_cons, List.foldr_cons] at ih ⊢
      rw [items_refs_zero r.items, ih]

theorem count_refs_item_zero_id (i : RowItem)
    (h : count_refs_item i = 0) : remove_refs_item i = i := by
  cases i with
  | txt s => rfl
  | cell c =>
      simp only [count_refs_item] at h
      simp only [remove_refs_item]
      have : c.content.filter (fun j => !is_ref_sup j) = c.content := by
        rw [List.filter_eq_self]
        intro a ha
        have := List.countP_eq_zero.mp h a ha
        simpa using this
      rw [this]

theorem items_refs_zero_id (l : List RowItem)
    (h : (l.map count_refs_item).foldr (· + ·) 0 = 0) :
    l.map remove_refs_item = l := by
  induction l with
  | nil => rfl
  | cons i t ih =>
      simp only [List.map_cons, List.foldr_cons, Nat.add_eq_zero] at h
      simp [count_refs_item_zero_id i h.1, ih h.2]

theorem remove_refs_id :
    ∀ rows : List Row, count_refs rows = 0 → remove_refs_rows rows = rows := by
  intro rows h
  induction rows with
  | nil => rfl
  | cons r tl ih =>
      simp only [count_refs, List.map_cons, List.foldr_cons, Nat.add_eq_zero] at h
      simp only [remove_refs_rows, List.map_cons] at ih ⊢
      rw [items_refs_zero_id r.items h.1]
      have h2 := ih h.2
      simp only [remove_refs_rows] at h2 ⊢
      rw [h2]

/-- C7: the Markup Sanitizer removes every `sup.reference` citation node
from the table tree (and touches nothing when there are none), and the
chained text substitutions of line 145 act pointwise in source order —
bullet → "", no-break space → " ", middle dot → ", ", en-dash → "-" — and
alter no other character; in `extract_info_table` the node removal happens
on the tree before the walk and the substitutions on the serialized text
afterwards. -/
theorem C7_sanitizer :
    (∀ rows : List Row, count_refs (remove_refs_rows rows) = 0) ∧
    (∀ rows : List Row, count_refs rows = 0 → remove_refs_rows rows = rows) ∧
    (∀ s : String, sanitize_text s = String.mk (flat_subst subst_char s.data)) ∧
    (∀ c : Char, c ≠ '•' → c ≠ ' ' → c ≠ '·' → c ≠ '–' →
        subst_char c = [c]) ∧
    (∀ (p : List HtmlTable) (t : HtmlTable), find_infobox p = some t →
        extract_info_table p =
          .ok (sanitize_text (serialize_rows (walk_rows (remove_refs_rows t.rows))))) := by
  refine ⟨count_refs_remove, remove_refs_id, ?_, ?_, ?_⟩
  · intro s
    unfold sanitize_text
    rw [sanitize_chars_eq]
  · intro c h1 h2 h3 h4
    simp [subst_char, h1, h2, h3, h4]
  · intro p t h
    simp [extract_info_table, h]

/-- Witness for C7: a citation-free row is untouched, a plain character is
preserved, and the pipeline equation holds on a one-table page. -/
theorem C7_sanitizer_witness :
    remove_refs_rows [row_with_label] = [row_with_label] ∧
    subst_char 'x' = ['x'] ∧
    extract_info_table page_with_infobox =
      .ok (sanitize_text (serialize_rows (walk_rows
        (remove_refs_rows [row_with_label])))) :=
  ⟨C7_sanitizer.2.1 [row_with_label] (by decide),
   C7_sanitizer.2.2.2.1 'x' (by decide) (by decide) (by decide) (by decide),
   C7_sanitizer.2.2.2.2 page_with_infobox ⟨["infobox"], none, [row_with_label]⟩ (by decide)⟩

/-- C8: the reshaping step of `get_country_info` uses only the first table
parsed from the markup, and `dropna` keeps exactly the rows whose three
columns Group, Property, Value are all present — incomplete rows are
discarded unrepaired, complete rows pass through unchanged. -/
theorem C8_reshape_dropna :
    ∀ (t : List PRow) (rest : List (List PRow)),
      get_country_info_reshape (t :: rest) = some (dropna t) ∧
      (∀ r ∈ dropna t, prow_complete r = true ∧ r ∈ t) ∧
      (∀ r ∈ t, prow_complete r = true → r ∈ dropna t) := by
  intro t rest
  refine ⟨rfl, ?_, ?_⟩
  · intro r hr
    have h := List.mem_filter.mp hr
    exact ⟨h.2, h.1⟩
  · intro r hr hc
    exact List.mem_filter.mpr ⟨hr, hc⟩

/-- Witness for C8: a table with one complete and two incomplete rows. -/
theorem C8_reshape_dropna_witness :
    get_country_info_reshape [prows_demo] = some (dropna prows_demo) ∧
    prow_complete ⟨some "A", some "P", some "V"⟩ = true ∧
    (⟨some "A", some "P", some "V"⟩ : PRow) ∈ dropna prows_demo :=
  ⟨(C8_reshape_dropna prows_demo []).1,
   ((C8_reshape_dropna prows_demo []).2.1 ⟨some "A", some "P", some "V"⟩
     (by decide)).1,
   (C8_reshape_dropna prows_demo []).2.2 ⟨some "A", some "P", some "V"⟩
     (by decide) (by decide)⟩

/-- C9: the full normalization pipeline — locate, strip citation nodes,
walk and annotate, reshape, group and serialize — is a pure function of
the parsed page (the source builds a fresh soup per call and keeps no
module-level state), so running it twice on the same input yields
byte-identical Grouped Info Document output. -/
theorem C9_pipeline_deterministic :
    ∀ p : List HtmlTable, grouped_info_document p = grouped_info_document p :=
  fun _ => rfl

end WikiGuess
